import Mathlib

/-!
Verification development for the `jupyterlab-variableInspector` extension.

The repository snapshot contains `src/index.ts` (plugin wiring: panel
creation, console wiring, notebook wiring) and `src/variableinspector.ts`
(the `VariableInspectorPanel` widget and the `IVariableInspector`
interfaces).  The modules `handler.ts`, `manager.ts`, `kernelconnector.ts`
and `inspectorscripts.ts` are referenced by the wiring but are not part of
the snapshot; where a claim depends on them, the corresponding definition
is modelled from the specification and marked as such in its doc comment.

All stateful TypeScript code is embedded as explicit state-passing
functions; promises that the wiring settles are embedded as
`Except String _` values (resolved / rejected); signal connections are
embedded as explicit connection lists on the panel state.
-/

namespace VarInspector

/-! ## Data model (`variableinspector.ts`, namespace `IVariableInspector`) -/

/-- Embeds `IVariableInspector.IVariable` (variableinspector.ts, lines 70-78). -/
structure IVariable where
  varName : String
  varSize : String
  varShape : String
  varContent : String
  varType : String
  isMatrix : Bool
deriving DecidableEq, Repr

/-- Embeds `IVariableInspector.IVariableKernelInfo` (variableinspector.ts, lines 63-68). -/
structure IVariableKernelInfo where
  kernelName : Option String
  languageName : Option String
  context : Option String
deriving DecidableEq, Repr

/-- Embeds `IVariableInspector.IVariableInspectorUpdate` (variableinspector.ts, lines 57-61). -/
structure IVariableInspectorUpdate where
  info : IVariableKernelInfo
  payload : List IVariable
deriving DecidableEq, Repr

/-- Tabular model returned by `performMatrixInspection` (phosphor `DataModel`).
The panel treats it as opaque data handed to the data grid, so only its
shape is represented. -/
structure DataModel where
  rows : Nat
  columns : Nat
deriving DecidableEq, Repr

/-! ## The panel (`variableinspector.ts`, class `VariableInspectorPanel`) -/

/-- One rendered table-body row: the five cells inserted by
`onInspectorUpdate` and the optional click action (the variable name
captured by the `row.onclick` closure, present only for matrix rows). -/
structure Row where
  onclick : Option String
  cells : List String
deriving DecidableEq, Repr

/-- Embeds the JavaScript `varContent.replace(/\\n/g, "</br>")` call
(variableinspector.ts, line 170): every occurrence of the two-character
sequence backslash-`n` is replaced, left to right, by `</br>`. -/
def replaceBackslashN : List Char → List Char
  | [] => []
  | '\\' :: 'n' :: rest => '<' :: '/' :: 'b' :: 'r' :: '>' :: replaceBackslashN rest
  | c :: rest => c :: replaceBackslashN rest

/-- HTML put into the Content cell of a row. -/
def contentHtml (s : String) : String :=
  ⟨replaceBackslashN s.data⟩

/-- Embeds the per-variable body of the render loop in `onInspectorUpdate`
(variableinspector.ts, lines 151-171): `row.onclick` is installed only
when `isMatrix`, and the five cells are inserted at positions 0..4 with
varName, varType, varSize, varShape and the transformed varContent. -/
def renderRow (v : IVariable) : Row :=
  { onclick := if v.isMatrix then some v.varName else none
    cells := [v.varName, v.varType, v.varSize, v.varShape, contentHtml v.varContent] }

/-- State of a `VariableInspectorPanel`.  `inspectedConns` / `disposedConns`
record which handlers' `inspected` / `disposed` signals are connected to
the panel (handlers are identified by numeric ids); `matrixViews` records
the data-grid widgets `_showMatrix` added to the dock layout (title and
model). -/
structure PanelState where
  source : Option Nat
  inspectedConns : List Nat
  disposedConns : List Nat
  kernelInfo : Option IVariableKernelInfo
  tableBody : List Row
  matrixViews : List (String × DataModel)
deriving DecidableEq, Repr

/-- The panel right after its constructor ran (variableinspector.ts,
lines 92-100): no source, no connections, empty table body. -/
def PanelState.initial : PanelState :=
  { source := none, inspectedConns := [], disposedConns := []
    kernelInfo := none, tableBody := [], matrixViews := [] }

/-- Phosphor `Signal.connect`: a no-op when this (signal, slot) pair is
already connected, otherwise the connection is appended. -/
def connect (l : List Nat) (h : Nat) : List Nat :=
  if h ∈ l then l else l ++ [h]

/-- Embeds the `source` setter (variableinspector.ts, lines 106-124):
if the new source equals the current one, return unchanged; otherwise
disconnect the old source's `inspected` and `disposed` signals, store the
new source, and if it is non-null connect its signals and call its
`performInspection`.  The returned `Bool` records whether
`performInspection` was invoked on the new source. -/
def setSource (p : PanelState) (s : Option Nat) : PanelState × Bool :=
  if p.source = s then (p, false)
  else
    let p1 :=
      match p.source with
      | some old =>
          { p with inspectedConns := p.inspectedConns.filter (fun x => x != old)
                   disposedConns := p.disposedConns.filter (fun x => x != old) }
      | none => p
    match s with
    | some nw =>
        ({ p1 with source := some nw
                   inspectedConns := connect p1.inspectedConns nw
                   disposedConns := connect p1.disposedConns nw }, true)
    | none => ({ p1 with source := none }, false)

/-- Embeds `onInspectorUpdate` (variableinspector.ts, lines 137-172):
store the kernel info in the toolbar widget and rebuild the table body
(`deleteTFoot` / `createTFoot` then one inserted row per payload entry). -/
def onInspectorUpdate (p : PanelState) (u : IVariableInspectorUpdate) : PanelState :=
  { p with kernelInfo := some u.info
           tableBody := u.payload.map renderRow }

/-- Embeds `onSourceDisposed` (variableinspector.ts, lines 177-179):
`this.source = null`. -/
def onSourceDisposed (p : PanelState) : PanelState :=
  (setSource p none).1

/-- Embeds `_showMatrix` (variableinspector.ts, lines 183-196): a new data
grid with the given model and title `"Matrix: " ++ name` is added to the
dock layout in a split. -/
def showMatrix (p : PanelState) (m : DataModel) (name : String) : PanelState :=
  { p with matrixViews := p.matrixViews ++ [("Matrix: " ++ name, m)] }

/-- Embeds a click on a rendered row (the closure installed at
variableinspector.ts, lines 155-159): when the row has a click action
carrying `name`, call `performMatrixInspection name` on the panel's
current source (`pmi`) and, when it resolves, render the model with
`_showMatrix`; rows without a click action do nothing. -/
def rowClick (pmi : String → Except String DataModel) (p : PanelState) (r : Row) :
    PanelState :=
  match r.onclick with
  | none => p
  | some name =>
      match pmi name with
      | Except.ok m => showMatrix p m name
      | Except.error _ => p

/-- Delivery of a handler's `inspected` signal: the panel's slot
`onInspectorUpdate` runs only while the connection exists. -/
def deliverInspected (p : PanelState) (h : Nat) (u : IVariableInspectorUpdate) :
    PanelState :=
  if h ∈ p.inspectedConns then onInspectorUpdate p u else p

/-- Delivery of a handler's `disposed` signal: the panel's slot
`onSourceDisposed` runs only while the connection exists. -/
def deliverDisposed (p : PanelState) (h : Nat) : PanelState :=
  if h ∈ p.disposedConns then onSourceDisposed p else p

/-! ## Handlers and the Manager

`handler.ts` and `manager.ts` are referenced by `index.ts` but are not in
the repository snapshot, so the parts of their behaviour the claims need
are modelled from the specification (sections 4.3-4.5). -/

/-- An `IVariableInspector.IInspectable` held by the wiring: either a
`VariableInspectionHandler` or a `DummyHandler`.  Each constructed object
has a distinct identity, represented by a numeric id. -/
inductive Inspectable where
  | real (id : Nat)
  | dummy (id : Nat)
deriving DecidableEq, Repr

/-- Embeds `Languages.LanguageModel` (fields read by the wiring at
index.ts, lines 141-144). -/
structure LanguageModel where
  initScript : String
  queryCommand : String
  matrixQueryCommand : String
deriving DecidableEq, Repr

/-- Modelled from the spec: `manager.ts` is not in the snapshot.  Per
section 4.5 the Manager holds a session-identifier-to-handler mapping and
the nullable active handler `source`. -/
structure Manager where
  handlers : List (String × Nat)
  source : Option Inspectable
deriving DecidableEq, Repr

/-- Modelled from the spec (section 4.5): `hasHandler(sessionId)`. -/
def Manager.hasHandler (m : Manager) (sid : String) : Bool :=
  (m.handlers.lookup sid).isSome

/-- Modelled from the spec (section 4.5): `getHandler(sessionId)`;
`none` corresponds to the absent / programmer-error case. -/
def Manager.getHandler (m : Manager) (sid : String) : Option Nat :=
  m.handlers.lookup sid

/-- Modelled from the spec (section 4.5): `addHandler(handler)` registers
the handler under its session identifier, overwriting any previous entry
for that identifier. -/
def Manager.addHandler (m : Manager) (sid : String) (h : Nat) : Manager :=
  { m with handlers := (sid, h) :: m.handlers.filter (fun q => q.1 != sid) }

/-- Modelled from the spec (section 4.5): when a handler reports disposal,
the Manager clears its active-handler reference exactly when it pointed at
that handler. -/
def Manager.onActiveHandlerDisposed (m : Manager) (h : Inspectable) : Manager :=
  if m.source = some h then { m with source := none } else m

/-- Modelled from the spec (sections 4.3 and 8): the mutable state of a
`Ready` `VariableInspectionHandler` that `performInspection` touches — the
previously cached serialized form and the updates emitted so far. -/
structure HandlerState where
  cache : String
  emitted : List IVariableInspectorUpdate
deriving DecidableEq, Repr

/-- Modelled from the spec (section 4.3): `performInspection` on a `Ready`
handler.  `parse` turns the reply's textual payload into variable
descriptors (`none` on parse failure, which is swallowed); the reply text
is the serialized form compared against the cache: if identical, nothing
happens; if different, the cache is updated and one `InspectionUpdate`
carrying the kernel info and the parsed payload is emitted.  The returned
`Bool` records whether an update was emitted. -/
def performInspection (parse : String → Option (List IVariable))
    (hs : HandlerState) (info : IVariableKernelInfo) (reply : String) :
    HandlerState × Bool :=
  match parse reply with
  | none => (hs, false)
  | some payload =>
      if reply = hs.cache then (hs, false)
      else ({ cache := reply, emitted := hs.emitted ++ [⟨info, payload⟩] }, true)

/-! ## Host wiring (`index.ts`) -/

/-- Embeds the `panel.disposed` hook installed by `newPanel` (index.ts,
lines 60-64): `if (manager.panel === panel) manager.panel = null`.
Panels are identified by numeric ids; the first argument is the Manager's
current panel reference. -/
def onPanelDisposed (managerPanel : Option Nat) (panel : Nat) : Option Nat :=
  if managerPanel = some panel then none else managerPanel

instance {ε α : Type} [DecidableEq ε] [DecidableEq α] : DecidableEq (Except ε α) :=
  fun x y =>
    match x, y with
    | Except.ok a, Except.ok b =>
        if h : a = b then isTrue (by rw [h])
        else isFalse (by intro hh; cases hh; exact h rfl)
    | Except.error a, Except.error b =>
        if h : a = b then isTrue (by rw [h])
        else isFalse (by intro hh; cases hh; exact h rfl)
    | Except.ok _, Except.error _ => isFalse (by intro hh; cases hh)
    | Except.error _, Except.ok _ => isFalse (by intro hh; cases hh)

/-- State shared by a wiring plugin's callbacks: the Manager, the
promise-keyed `handlers` map (panel id to the settled handler promise:
`Except.ok` resolved, `Except.error` rejected), and a fresh-id counter
standing for object allocation of new handlers. -/
structure WiringState where
  manager : Manager
  promises : List (String × Except String Inspectable)
  nextId : Nat
deriving DecidableEq, Repr

/-- JavaScript map assignment `handlers[panelId] = v`: overwrite any
previous entry for the key. -/
def setPromise (ps : List (String × Except String Inspectable)) (pid : String)
    (v : Except String Inspectable) : List (String × Except String Inspectable) :=
  (pid, v) :: ps.filter (fun q => q.1 != pid)

/-- Embeds the `consoles.widgetAdded` callback (index.ts, lines 124-178),
with the asynchronous connector-ready / script-lookup chain settled:
`script` is the outcome of `Languages.getScript(kerneltype)`.  If the
Manager already has a handler for the session path, the panel's promise
resolves with it; otherwise on script success a new
`VariableInspectionHandler` is constructed and registered and the promise
resolves with it; on script failure a new `DummyHandler` is constructed
and the promise resolves with it. -/
def consoleWidgetAdded (st : WiringState) (panelId sessionPath : String)
    (script : Except String LanguageModel) : WiringState :=
  match st.manager.getHandler sessionPath with
  | some h =>
      { st with promises := setPromise st.promises panelId (Except.ok (Inspectable.real h)) }
  | none =>
      match script with
      | Except.ok _ =>
          { manager := st.manager.addHandler sessionPath st.nextId
            promises := setPromise st.promises panelId
              (Except.ok (Inspectable.real st.nextId))
            nextId := st.nextId + 1 }
      | Except.error _ =>
          { st with
              promises := setPromise st.promises panelId
                (Except.ok (Inspectable.dummy st.nextId))
              nextId := st.nextId + 1 }

/-- Embeds the `notebooks.widgetAdded` callback (index.ts, lines 227-270),
with the asynchronous chain settled as above.  There is no `hasHandler`
check: on script success a new `VariableInspectionHandler` is always
constructed and registered; on script failure the promise is rejected with
the lookup's error message. -/
def notebookWidgetAdded (st : WiringState) (panelId sessionPath : String)
    (script : Except String LanguageModel) : WiringState :=
  match script with
  | Except.ok _ =>
      { manager := st.manager.addHandler sessionPath st.nextId
        promises := setPromise st.promises panelId
          (Except.ok (Inspectable.real st.nextId))
        nextId := st.nextId + 1 }
  | Except.error msg =>
      { st with promises := setPromise st.promises panelId (Except.error msg) }

/-- Embeds the `app.shell.currentChanged` callback (index.ts, lines
185-197 for consoles and 277-289 for notebooks; the two blocks are
identical).  `tracker` is the set of widget ids the plugin's tracker
holds.  When the new widget is tracked and its promise resolved with a
handler, the Manager's `source` is set to it and `performInspection()` is
invoked on `manager.source`; the second component records the inspectable
on which `performInspection` was invoked (`none` when it was not). -/
def currentChanged (st : WiringState) (tracker : List String)
    (widget : Option String) : WiringState × Option Inspectable :=
  match widget with
  | none => (st, none)
  | some w =>
      if w ∈ tracker then
        match st.promises.lookup w with
        | some (Except.ok src) =>
            ({ st with manager := { st.manager with source := some src } }, some src)
        | _ => (st, none)
      else (st, none)

/-! ## Auxiliary predicates and concrete fixtures -/

/-- The Manager's map has at most one entry per session identifier. -/
def keysNodup (m : Manager) : Prop :=
  (m.handlers.map Prod.fst).Nodup

/-- Tests whether a `handlers`-map entry is a promise resolved with a
Dummy Handler. -/
def isResolvedDummy : Option (Except String Inspectable) → Bool
  | some (Except.ok (Inspectable.dummy _)) => true
  | _ => false

/-- Concrete language bundle. -/
def lm0 : LanguageModel := ⟨"init", "query", "matrixQuery"⟩

/-- Fresh wiring state: empty Manager, no promises. -/
def st0 : WiringState := ⟨⟨[], none⟩, [], 0⟩

/-- Wiring state in which session path `s1` already has handler `0`,
resolved for console panel `c1`. -/
def st1 : WiringState := ⟨⟨[("s1", 0)], none⟩, [("c1", Except.ok (Inspectable.real 0))], 1⟩

/-- Variable whose content holds a literal backslash-`n` sequence. -/
def vNewline : IVariable :=
  { varName := "x", varSize := "4", varShape := "1", varContent := "a\\nb"
    varType := "str", isMatrix := false }

/-- Matrix-flagged variable. -/
def vMatrix : IVariable :=
  { varName := "m", varSize := "9", varShape := "3 x 3", varContent := "ndarray"
    varType := "ndarray", isMatrix := true }

/-- Update carrying one matrix variable. -/
def u5 : IVariableInspectorUpdate :=
  ⟨⟨some "python3", some "python", none⟩, [vMatrix]⟩

/-- Source whose `performMatrixInspection` always resolves with a 2 x 3
model. -/
def pmi5 : String → Except String DataModel := fun _ => Except.ok ⟨2, 3⟩

/-- Panel bound to handler 1 with both signals connected. -/
def panel9 : PanelState := ⟨some 1, [1], [1], none, [], []⟩

/-- Panel bound to handler 4 with both signals connected. -/
def panel6 : PanelState := ⟨some 4, [4], [4], none, [], []⟩

/-- Empty inspection update. -/
def u0 : IVariableInspectorUpdate := ⟨⟨none, none, none⟩, []⟩

/-- Manager holding one handler. -/
def m0 : Manager := ⟨[("a", 1)], none⟩

/-- Parser resolving every reply with an empty descriptor list. -/
def parse7 : String → Option (List IVariable) := fun _ => some []

/-- Empty kernel info. -/
def info7 : IVariableKernelInfo := ⟨none, none, none⟩

/-! ## Theorems -/

/-- Claim C3: for every UI focus change to a tracked widget whose handler
promise resolved with a handler `h`, the wiring sets the Manager's active
handler (`manager.source`) to `h` and invokes `performInspection()` on it
(the returned second component records the invocation target).  The same
`currentChanged` callback embeds both the console and the notebook
wiring's focus handlers, which are textually identical. -/
theorem c3_focus_activates_handler (st : WiringState) (tracker : List String)
    (w : String) (h : Inspectable)
    (htr : w ∈ tracker) (hp : st.promises.lookup w = some (Except.ok h)) :
    (currentChanged st tracker (some w)).1.manager.source = some h ∧
    (currentChanged st tracker (some w)).2 = some h := by
  simp [currentChanged, htr, hp]

/-- Witness for C3 at a concrete wiring state. -/
theorem c3_witness :
    (currentChanged st1 ["c1"] (some "c1")).1.manager.source = some (Inspectable.real 0) ∧
    (currentChanged st1 ["c1"] (some "c1")).2 = some (Inspectable.real 0) :=
  c3_focus_activates_handler st1 ["c1"] "c1" (Inspectable.real 0) (by decide) (by decide)

/-- Claim C6: when the bound source's `disposed` signal is delivered to
the panel, the panel clears its source and disconnects that source's
`inspected` and `disposed` signals, so a later `inspected` delivery from
it changes nothing. -/
theorem c6_source_disposed (p : PanelState) (h : Nat) (u : IVariableInspectorUpdate)
    (hs : p.source = some h) (hc : h ∈ p.disposedConns) :
    (deliverDisposed p h).source = none ∧
    h ∉ (deliverDisposed p h).inspectedConns ∧
    h ∉ (deliverDisposed p h).disposedConns ∧
    deliverInspected (deliverDisposed p h) h u = deliverDisposed p h := by
  have hne : p.source ≠ (none : Option Nat) := by rw [hs]; exact Option.some_ne_none h
  refine ⟨?_, ?_, ?_, ?_⟩ <;>
    simp [deliverDisposed, hc, onSourceDisposed, setSource, hs, hne, deliverInspected,
      List.mem_filter]

/-- Witness for C6 at a concrete panel state. -/
theorem c6_witness :
    (deliverDisposed panel6 4).source = none ∧
    4 ∉ (deliverDisposed panel6 4).inspectedConns ∧
    4 ∉ (deliverDisposed panel6 4).disposedConns ∧
    deliverInspected (deliverDisposed panel6 4) 4 u0 = deliverDisposed panel6 4 :=
  c6_source_disposed panel6 4 u0 (by decide) (by decide)

/-- Claim C8: when a handler reports disposal, the Manager's active
handler reference is cleared exactly when it pointed at that handler, and
is left untouched otherwise. -/
theorem c8_active_cleared (m : Manager) (h : Inspectable) :
    (m.source = some h → (m.onActiveHandlerDisposed h).source = none) ∧
    (m.source ≠ some h → m.onActiveHandlerDisposed h = m) := by
  constructor
  · intro hsrc; simp [Manager.onActiveHandlerDisposed, hsrc]
  · intro hsrc; simp [Manager.onActiveHandlerDisposed, hsrc]

/-- Witness for C8: the pointed-at case clears, the other-handler case is
untouched. -/
theorem c8_witness :
    (Manager.onActiveHandlerDisposed ⟨[], some (Inspectable.real 1)⟩
      (Inspectable.real 1)).source = none ∧
    Manager.onActiveHandlerDisposed ⟨[], some (Inspectable.real 1)⟩
      (Inspectable.real 2) = ⟨[], some (Inspectable.real 1)⟩ :=
  ⟨(c8_active_cleared ⟨[], some (Inspectable.real 1)⟩ (Inspectable.real 1)).1 rfl,
   (c8_active_cleared ⟨[], some (Inspectable.real 1)⟩ (Inspectable.real 2)).2 (by decide)⟩

/-- Claim C9: assigning the panel's `source` to the value it already
holds returns the state unchanged (no disconnect, no reconnect) and does
not call `performInspection`; assigning a different non-null source
disconnects the old source's two signals, connects the new source's, and
calls its `performInspection` (the `true` component). -/
theorem c9_setter (p : PanelState) (old nw : Nat) :
    setSource p p.source = (p, false) ∧
    (p.source = some old → p.source ≠ some nw →
      setSource p (some nw) =
        ({ p with source := some nw
                  inspectedConns := connect (p.inspectedConns.filter (fun x => x != old)) nw
                  disposedConns := connect (p.disposedConns.filter (fun x => x != old)) nw },
         true)) := by
  constructor
  · simp [setSource]
  · intro h1 h2
    have h3 : (some old : Option Nat) ≠ some nw := h1 ▸ h2
    simp [setSource, h1, h3]

/-- Witness for C9 at a concrete panel state. -/
theorem c9_witness :
    setSource panel9 panel9.source = (panel9, false) ∧
    setSource panel9 (some 2) =
      ({ panel9 with source := some 2
                     inspectedConns := connect (panel9.inspectedConns.filter (fun x => x != 1)) 2
                     disposedConns := connect (panel9.disposedConns.filter (fun x => x != 1)) 2 },
       true) :=
  ⟨(c9_setter panel9 1 2).1, (c9_setter panel9 1 2).2 rfl (by decide)⟩

/-- Claim C10: when a `VariableInspectorPanel` is disposed, the hook
installed by `newPanel` nulls the Manager's panel reference exactly when
it references that panel; a different or already-null reference is left
unchanged. -/
theorem c10_panel_cleared (p q : Nat) :
    onPanelDisposed (some p) p = none ∧
    (q ≠ p → onPanelDisposed (some q) p = some q) ∧
    onPanelDisposed none p = none := by
  refine ⟨by simp [onPanelDisposed], fun hq => by simp [onPanelDisposed, hq],
    by simp [onPanelDisposed]⟩

/-- Witness for C10 at concrete panel ids. -/
theorem c10_witness :
    onPanelDisposed (some 3) 3 = none ∧
    onPanelDisposed (some 7) 3 = some 7 ∧
    onPanelDisposed none 3 = none :=
  ⟨(c10_panel_cleared 3 7).1, (c10_panel_cleared 3 7).2.1 (by decide),
   (c10_panel_cleared 3 7).2.2⟩

/-- Claim C4 fails as stated: the Content cell is not the raw
`varContent` field — the render loop replaces every literal backslash-`n`
sequence in it with `</br>`.  Concretely, for a payload with one variable
whose content is the four characters `a\nb`, the rendered cells differ
from the five raw fields. -/
theorem c4_counterexample :
    (onInspectorUpdate PanelState.initial ⟨info7, [vNewline]⟩).tableBody.map Row.cells ≠
      [[vNewline.varName, vNewline.varType, vNewline.varSize, vNewline.varShape,
        vNewline.varContent]] := by
  decide

/-- Claim C4 (amended): on every inspected update with payload `P`, the
panel rebuilds its table body to exactly `|P|` rows in the order of `P`,
row `i` holding the five cells name, type, size, shape, and content with
every literal backslash-`n` sequence replaced by `</br>`. -/
theorem c4_amended (p : PanelState) (u : IVariableInspectorUpdate) (i : Nat)
    (hi : i < u.payload.length) :
    (onInspectorUpdate p u).tableBody.length = u.payload.length ∧
    (onInspectorUpdate p u).tableBody[i]? =
      some { onclick := if u.payload[i].isMatrix then some u.payload[i].varName else none
             cells := [u.payload[i].varName, u.payload[i].varType, u.payload[i].varSize,
                       u.payload[i].varShape, contentHtml u.payload[i].varContent] } := by
  constructor
  · simp [onInspectorUpdate]
  · simp [onInspectorUpdate, List.getElem?_map, List.getElem?_eq_getElem hi, renderRow]

/-- Witness for C4 (amended) at a concrete one-variable payload. -/
theorem c4_amended_witness :
    (onInspectorUpdate PanelState.initial ⟨info7, [vNewline]⟩).tableBody.length = 1 ∧
    (onInspectorUpdate PanelState.initial ⟨info7, [vNewline]⟩).tableBody[0]? =
      some { onclick := none
             cells := ["x", "str", "4", "1", "a</br>b"] } := by
  have h := c4_amended PanelState.initial ⟨info7, [vNewline]⟩ 0 (by decide)
  exact ⟨h.1, h.2.trans (by decide)⟩

/-- Claim C5: a rendered row gets a click action exactly when its
descriptor is matrix-flagged, the action carrying that variable's name;
clicking a row without an action does nothing, while clicking one with an
action calls `performMatrixInspection` with the captured name on the
panel's current source and, on success, renders the returned model in a
separate data-grid view. -/
theorem c5_matrix_click (p : PanelState) (u : IVariableInspectorUpdate) (i : Nat)
    (hi : i < u.payload.length) (pmi : String → Except String DataModel)
    (r : Row) (name : String) (m : DataModel) :
    (onInspectorUpdate p u).tableBody[i]?.map Row.onclick =
      some (if u.payload[i].isMatrix then some u.payload[i].varName else none) ∧
    (r.onclick = none → rowClick pmi p r = p) ∧
    (r.onclick = some name → pmi name = Except.ok m →
      rowClick pmi p r = showMatrix p m name) := by
  refine ⟨?_, ?_, ?_⟩
  · simp [onInspectorUpdate, List.getElem?_map, List.getElem?_eq_getElem hi, renderRow]
  · intro hr; simp [rowClick, hr]
  · intro hr hm; simp [rowClick, hr, hm]

/-- Witness for C5: one matrix row carries its variable's name as click
action; clicking it renders a matrix view; a click-free row is inert. -/
theorem c5_witness :
    (onInspectorUpdate PanelState.initial u5).tableBody[0]?.map Row.onclick =
      some (some "m") ∧
    rowClick pmi5 PanelState.initial ⟨none, []⟩ = PanelState.initial ∧
    rowClick pmi5 PanelState.initial ⟨some "m", []⟩ =
      showMatrix PanelState.initial ⟨2, 3⟩ "m" := by
  have h := c5_matrix_click PanelState.initial u5 0 (by decide) pmi5 ⟨none, []⟩ "m" ⟨2, 3⟩
  have h2 := c5_matrix_click PanelState.initial u5 0 (by decide) pmi5 ⟨some "m", []⟩ "m" ⟨2, 3⟩
  exact ⟨h.1.trans (by decide), h.2.1 rfl, h2.2.2 rfl (by decide)⟩

/-- Claim C7 fails as stated in its second half: when the cached
serialized form already equals the remote listing's serialized form, two
consecutive `performInspection` calls with no intervening remote state
change emit zero updates in total, not exactly one.  Concretely, a Ready
handler whose cache is `"[]"` queried twice against the unchanged remote
listing `"[]"` emits nothing. -/
theorem c7_counterexample :
    (cond (performInspection parse7 ⟨"[]", []⟩ info7 "[]").2 1 0) +
      (cond (performInspection parse7
        (performInspection parse7 ⟨"[]", []⟩ info7 "[]").1 info7 "[]").2 1 0) ≠ 1 := by
  decide

/-- Claim C7 (amended): for a Ready handler whose parse succeeds,
`performInspection` emits an update exactly when the serialized form
differs from the previously cached one; two consecutive calls with no
intervening remote state change emit at most one update in total —
exactly one when the first call's serialized form differs from the cache,
zero otherwise. -/
theorem c7_amended (parse : String → Option (List IVariable)) (hs : HandlerState)
    (info : IVariableKernelInfo) (reply : String) (payload : List IVariable)
    (hp : parse reply = some payload) :
    ((performInspection parse hs info reply).2 = true ↔ reply ≠ hs.cache) ∧
    (performInspection parse (performInspection parse hs info reply).1 info
        reply).1.emitted.length =
      hs.emitted.length + (if reply = hs.cache then 0 else 1) := by
  by_cases hc : reply = hs.cache
  · subst hc
    simp [performInspection, hp]
  · simp [performInspection, hp, hc]

/-- Witness for C7 (amended): a fresh cache differs from the listing, so
the pair of calls emits exactly one update. -/
theorem c7_amended_witness :
    ((performInspection parse7 ⟨"", []⟩ info7 "[]").2 = true ↔ ("[]" : String) ≠ "") ∧
    (performInspection parse7 (performInspection parse7 ⟨"", []⟩ info7 "[]").1 info7
        "[]").1.emitted.length =
      ([] : List IVariableInspectorUpdate).length + (if ("[]" : String) = "" then 0 else 1) :=
  c7_amended parse7 ⟨"", []⟩ info7 "[]" [] rfl

/-- Claim C1 fails as stated for notebook sessions: when the script
lookup is rejected, the notebook wiring rejects the session's handler
entry with the lookup's message instead of resolving it with a Dummy
Handler.  Concretely, on a fresh state and the rejection message for
language `cobol`, the stored promise is a rejection and not a resolved
dummy. -/
theorem c1_counterexample :
    isResolvedDummy
      ((notebookWidgetAdded st0 "nb1" "s1"
        (Except.error "No handler found for language cobol")).promises.lookup "nb1") = false ∧
    (notebookWidgetAdded st0 "nb1" "s1"
        (Except.error "No handler found for language cobol")).promises.lookup "nb1" =
      some (Except.error "No handler found for language cobol") := by
  decide

/-- Claim C1 (amended): for a session path with no existing handler and a
rejected script lookup, the console wiring resolves the session's handler
entry with a newly constructed Dummy Handler (session setup does not
fail), while the notebook wiring rejects the entry with the lookup's
message. -/
theorem c1_amended (st : WiringState) (pid path msg : String)
    (hno : st.manager.getHandler path = none) :
    (consoleWidgetAdded st pid path (Except.error msg)).promises.lookup pid =
      some (Except.ok (Inspectable.dummy st.nextId)) ∧
    (notebookWidgetAdded st pid path (Except.error msg)).promises.lookup pid =
      some (Except.error msg) := by
  constructor
  · simp [consoleWidgetAdded, hno, setPromise, List.lookup]
  · simp [notebookWidgetAdded, setPromise, List.lookup]

/-- Witness for C1 (amended) on a fresh wiring state. -/
theorem c1_amended_witness :
    (consoleWidgetAdded st0 "c1" "s1" (Except.error "no script")).promises.lookup "c1" =
      some (Except.ok (Inspectable.dummy st0.nextId)) ∧
    (notebookWidgetAdded st0 "c1" "s1" (Except.error "no script")).promises.lookup "c1" =
      some (Except.error "no script") :=
  c1_amended st0 "c1" "s1" "no script" (by decide)

/-- Claim C2 fails as stated for the notebook wiring: it never checks for
an existing handler.  Concretely, with handler `0` already registered for
session path `s1`, a notebook added on that path constructs a second
handler (the fresh id `1`), resolves its entry with it, and overwrites the
Manager's entry, instead of reusing handler `0`. -/
theorem c2_counterexample :
    st1.manager.getHandler "s1" = some 0 ∧
    (notebookWidgetAdded st1 "nb2" "s1" (Except.ok lm0)).promises.lookup "nb2" =
      some (Except.ok (Inspectable.real 1)) ∧
    (notebookWidgetAdded st1 "nb2" "s1" (Except.ok lm0)).nextId = 2 ∧
    (notebookWidgetAdded st1 "nb2" "s1" (Except.ok lm0)).manager.getHandler "s1" =
      some 1 := by
  decide

/-- Registering a handler keeps the Manager's key list duplicate-free. -/
theorem keysNodup_addHandler (m : Manager) (sid : String) (h : Nat)
    (hm : keysNodup m) : keysNodup (m.addHandler sid h) := by
  unfold keysNodup Manager.addHandler at *
  simp only [List.map_cons]
  refine List.nodup_cons.mpr ⟨?_, ?_⟩
  · intro hmem
    rcases List.mem_map.mp hmem with ⟨q, hq, hq1⟩
    have hne := (List.mem_filter.mp hq).2
    rw [hq1] at hne
    simp at hne
  · exact hm.sublist ((List.filter_sublist _).map Prod.fst)

/-- Claim C2 (amended): `addHandler` registers under the handler's
identifier by replacement, so the Manager holds at most one entry per
identifier, and both wiring callbacks preserve that; the console wiring
reuses an existing handler for a session path (the Manager and the id
allocator are untouched and the entry resolves with the existing
handler), while the notebook wiring always constructs a new handler whose
registration replaces any previous entry for the path. -/
theorem c2_amended (m : Manager) (sid : String) (h : Nat) (st : WiringState)
    (pid path : String) (script : Except String LanguageModel) (h0 : Nat)
    (hm : keysNodup m) (hst : keysNodup st.manager) :
    (keysNodup (m.addHandler sid h) ∧ (m.addHandler sid h).getHandler sid = some h) ∧
    keysNodup (consoleWidgetAdded st pid path script).manager ∧
    keysNodup (notebookWidgetAdded st pid path script).manager ∧
    (st.manager.getHandler path = some h0 →
      consoleWidgetAdded st pid path script =
        { st with promises := setPromise st.promises pid (Except.ok (Inspectable.real h0)) }) := by
  refine ⟨⟨keysNodup_addHandler m sid h hm, ?_⟩, ?_, ?_, ?_⟩
  · simp [Manager.addHandler, Manager.getHandler, List.lookup]
  · unfold consoleWidgetAdded
    cases hre : st.manager.getHandler path with
    | some hh => exact hst
    | none =>
        cases script with
        | ok _ => exact keysNodup_addHandler st.manager path st.nextId hst
        | error _ => exact hst
  · cases script with
    | ok _ => exact keysNodup_addHandler st.manager path st.nextId hst
    | error _ => exact hst
  · intro hre
    simp [consoleWidgetAdded, hre]

/-- Witness for C2 (amended) at a concrete Manager and wiring state. -/
theorem c2_amended_witness :
    (keysNodup (m0.addHandler "b" 2) ∧ (m0.addHandler "b" 2).getHandler "b" = some 2) ∧
    keysNodup (consoleWidgetAdded st1 "c2" "s1" (Except.ok lm0)).manager ∧
    keysNodup (notebookWidgetAdded st1 "c2" "s1" (Except.ok lm0)).manager ∧
    consoleWidgetAdded st1 "c2" "s1" (Except.ok lm0) =
      { st1 with promises := setPromise st1.promises "c2" (Except.ok (Inspectable.real 0)) } := by
  have h := c2_amended m0 "b" 2 st1 "c2" "s1" (Except.ok lm0) 0
    (by unfold keysNodup; decide) (by unfold keysNodup; decide)
  exact ⟨h.1, h.2.1, h.2.2.1, h.2.2.2 (by decide)⟩

end VarInspector
